import Mathlib

/-!
Verification development for the Toshi search server core.

The Rust sources embedded here (shallowly) are:
  * `src/handle.rs`        — `LocalIndex`, `search_index`, `add_document`, `delete_term`
  * `src/query/mod.rs`     — the query AST, `make_field_value`
  * `src/query/term.rs`    — `ExactTerm::create_query`
  * `toshi-server/src/index.rs` — `IndexCatalog`, `add_index`, `refresh_catalog`
  * `src/cluster/placement_server.rs` — `determine_placement`

Machinery of the third-party engine (tantivy) and of repository files that are
not part of the sources (`results.rs`, the newer `toshi-server/src/handle.rs`,
the error enum) is modelled from the specification, as marked on each
definition.
-/

set_option maxRecDepth 4000

namespace Toshi

/-- Modelled from the spec: error taxonomy of §7 (the repository's error enum
is not among the sources; `src/query/mod.rs` uses the `QueryError`, `IOError`,
`UnknownIndex` constructors). -/
inductive ToshiError where
  | UnknownIndex (name : String)
  | UnknownField (field : String)
  | FieldNotIndexed (field : String)
  | QueryError (msg : String)
  | IOError (msg : String)
  | AlreadyExists (name : String)
  | Internal (msg : String)
deriving DecidableEq, Repr

/-- Field types of the engine schema (spec §3: text with indexing options,
i64, u64, f64, facet, bytes). For text we record whether the field is indexed
and whether positions are recorded. -/
inductive FieldType where
  | text (indexed : Bool) (positions : Bool)
  | i64
  | u64
  | f64
  | facet
  | bytes
deriving DecidableEq, Repr

/-- A schema is an ordered list of named, typed fields (spec §3). -/
abbrev Schema := List (String × FieldType)

/-- Engine `Field` handles are ordinals into the schema; `schema.get_field`
returns the ordinal of the named field, if any. -/
def get_field : Schema → String → Option Nat
  | [], _ => none
  | (n, _) :: rest, k => if n = k then some 0 else (get_field rest k).map (· + 1)

/-- Named lookup that also yields the field type. -/
def get_field_entry : Schema → String → Option (Nat × FieldType)
  | [], _ => none
  | (n, t) :: rest, k =>
    if n = k then some (0, t) else (get_field_entry rest k).map (fun p => (p.1 + 1, p.2))

/-- Name of the field with a given ordinal (used by `schema.to_named_doc`). -/
def field_name (schema : Schema) (f : Nat) : String :=
  ((schema.get? f).map Prod.fst).getD ""

/-- An engine `Term`: a field ordinal together with its text
(`Term::from_field_text`). -/
abbrev Term := Nat × String

/-- An indexed document as the engine stores it: (field ordinal, token) pairs. -/
abbrev Doc := List (Nat × String)

/-- `IndexRecordOption` of the engine (only `Basic` is used by the sources). -/
inductive IndexRecordOption where
  | basic
  | withFreqs
  | withFreqsAndPositions
deriving DecidableEq, Repr

/-! ## Query AST (`src/query/mod.rs` and `src/query/term.rs`) -/

/-- `ExactTerm` (`src/query/term.rs`): a single-field term query. The Rust
`HashMap<String, String>` is embedded as an association list. -/
structure ExactTerm where
  term : List (String × String)
deriving DecidableEq, Repr

/-- Modelled from the spec: `FuzzyTerm` payload (`src/query/fuzzy.rs` is not
among the sources; spec §4.1: value, edit distance, transposition flag). -/
structure FuzzyTerm where
  value : String
  distance : Nat
  transposition : Bool
deriving DecidableEq, Repr

/-- Modelled from the spec: `FuzzyQuery` (`src/query/fuzzy.rs` missing),
field → fuzzy term. -/
structure FuzzyQuery where
  fuzzy : List (String × FuzzyTerm)
deriving DecidableEq, Repr

/-- Modelled from the spec: phrase payload (`src/query/phrase.rs` missing):
ordered term list with optional slop. -/
structure TermPair where
  terms : List String
  slop : Option Nat
deriving DecidableEq, Repr

/-- Modelled from the spec: `PhraseQuery` (`src/query/phrase.rs` missing). -/
structure PhraseQuery where
  phrase : List (String × TermPair)
deriving DecidableEq, Repr

/-- Modelled from the spec: `RegexQuery` (`src/query/regex.rs` missing),
field → pattern. -/
structure RegexQuery where
  regex : List (String × String)
deriving DecidableEq, Repr

/-- Modelled from the spec: range bounds (`src/query/range.rs` missing),
spec §4.1: `{gt|gte, lt|lte}` numeric bounds. -/
structure Ranges where
  gt : Option Int
  gte : Option Int
  lt : Option Int
  lte : Option Int
deriving DecidableEq, Repr

/-- Modelled from the spec: `RangeQuery` (`src/query/range.rs` missing). -/
structure RangeQuery where
  range : List (String × Ranges)
deriving DecidableEq, Repr

/-- `TermQueries` (`src/query/mod.rs`): the non-recursive sub-queries a bool
query may contain. -/
inductive TermQueries where
  | Fuzzy (q : FuzzyQuery)
  | Exact (q : ExactTerm)
  | Phrase (q : PhraseQuery)
  | Range (q : RangeQuery)
  | Regex (q : RegexQuery)
deriving DecidableEq, Repr

/-- Modelled from the spec: `BoolQuery` (`src/query/bool.rs` missing):
must / must_not / should lists of `TermQueries` clauses. -/
structure BoolQuery where
  must : List TermQueries
  must_not : List TermQueries
  should : List TermQueries
deriving DecidableEq, Repr

/-- `Query` (`src/query/mod.rs`): the untagged sum of the seven query variants
plus `All`. -/
inductive Query where
  | Boolean (bool : BoolQuery)
  | Fuzzy (q : FuzzyQuery)
  | Exact (q : ExactTerm)
  | Phrase (q : PhraseQuery)
  | Regex (q : RegexQuery)
  | Range (q : RangeQuery)
  | Raw (raw : String)
  | All
deriving DecidableEq, Repr

/-- `Metrics` (`src/query/mod.rs`): the aggregation request. -/
inductive Metrics where
  | SumAgg (field : String)
deriving DecidableEq, Repr

/-- `Request` (`src/query/mod.rs`): a search request. -/
structure Request where
  aggs : Option Metrics
  query : Option Query
  limit : Nat
deriving Repr

/-! ## Executable engine queries (modelled) -/

/-- Modelled from the spec: the engine's executable query nodes (§1: the
engine exposes concrete query nodes for term/phrase/fuzzy/regex/range/boolean/
all, plus the raw-string parser output). -/
inductive TQuery where
  | term (t : Term) (opt : IndexRecordOption)
  | phrase (field : Nat) (terms : List String) (slop : Nat)
  | fuzzy (t : Term) (distance : Nat) (transposition : Bool)
  | regex (field : Nat) (pattern : String)
  | range (field : Nat) (gt gte lt lte : Option Int)
  | boolean (must must_not should : List TQuery)
  | parsed (raw : String)
  | all
deriving Repr

/-- `make_field_value` (`src/query/mod.rs`): resolve a field name and build a
term; an unknown field yields `QueryError ("Field: {k} does not exist")`. -/
def make_field_value (schema : Schema) (k : String) (v : String) : Except ToshiError Term :=
  match get_field schema k with
  | none => .error (.QueryError s!"Field: {k} does not exist")
  | some field => .ok (field, v)

/-- `ExactTerm::create_query` (`src/query/term.rs`): take the first entry of
the field→term map, build a basic term query; an empty map is a
`QueryError ("Query generation failed")`. -/
def ExactTerm.create_query (q : ExactTerm) (schema : Schema) : Except ToshiError TQuery :=
  match q.term with
  | (k, v) :: _ =>
    match make_field_value schema k v with
    | .error e => .error e
    | .ok term => .ok (.term term .basic)
  | [] => .error (.QueryError "Query generation failed")

/-- Modelled from the spec: `FuzzyQuery::create_query` (`src/query/fuzzy.rs`
missing; §4.1: field must exist, distance capped at 2, empty value fails). -/
def FuzzyQuery.create_query (q : FuzzyQuery) (schema : Schema) : Except ToshiError TQuery :=
  match q.fuzzy with
  | [] => .error (.QueryError "Query generation failed")
  | (k, ft) :: _ =>
    match get_field schema k with
    | none => .error (.UnknownField k)
    | some f =>
      if ft.value = "" then .error (.QueryError "Fuzzy term value cannot be empty")
      else .ok (.fuzzy (f, ft.value) (min ft.distance 2) ft.transposition)

/-- Modelled from the spec: `PhraseQuery::create_query` (`src/query/phrase.rs`
missing; §4.1: field must exist and be text with positions recorded, slop
defaults to 0). -/
def PhraseQuery.create_query (q : PhraseQuery) (schema : Schema) : Except ToshiError TQuery :=
  match q.phrase with
  | [] => .error (.QueryError "Query generation failed")
  | (k, tp) :: _ =>
    match get_field_entry schema k with
    | none => .error (.UnknownField k)
    | some (f, .text _ positions) =>
      if positions then .ok (.phrase f tp.terms (tp.slop.getD 0))
      else .error (.FieldNotIndexed k)
    | some (_, _) => .error (.FieldNotIndexed k)

/-- Modelled from the spec: `RegexQuery::create_query` (`src/query/regex.rs`
missing; §4.1: field must exist and be indexed; pattern validation is the
engine's and is modelled as always succeeding). -/
def RegexQuery.create_query (q : RegexQuery) (schema : Schema) : Except ToshiError TQuery :=
  match q.regex with
  | [] => .error (.QueryError "Query generation failed")
  | (k, pat) :: _ =>
    match get_field_entry schema k with
    | none => .error (.UnknownField k)
    | some (f, .text indexed _) =>
      if indexed then .ok (.regex f pat) else .error (.FieldNotIndexed k)
    | some (f, _) => .ok (.regex f pat)

/-- Is the field type numeric (i64/u64/f64)? -/
def FieldType.isNumeric : FieldType → Bool
  | .i64 => true
  | .u64 => true
  | .f64 => true
  | _ => false

/-- Modelled from the spec: `RangeQuery::create_query` (`src/query/range.rs`
missing; §4.1: the field must be numeric and at least one bound is required). -/
def RangeQuery.create_query (q : RangeQuery) (schema : Schema) : Except ToshiError TQuery :=
  match q.range with
  | [] => .error (.QueryError "Query generation failed")
  | (k, r) :: _ =>
    match get_field_entry schema k with
    | none => .error (.UnknownField k)
    | some (f, t) =>
      if t.isNumeric then
        if r.gt.isNone && r.gte.isNone && r.lt.isNone && r.lte.isNone then
          .error (.QueryError "No bounds specified in range query")
        else .ok (.range f r.gt r.gte r.lt r.lte)
      else .error (.QueryError "Field is not a numeric type")

/-- Compile one bool-query clause. -/
def TermQueries.create_query (q : TermQueries) (schema : Schema) : Except ToshiError TQuery :=
  match q with
  | .Fuzzy f => f.create_query schema
  | .Exact e => e.create_query schema
  | .Phrase p => p.create_query schema
  | .Range r => r.create_query schema
  | .Regex r => r.create_query schema

/-- Compile a list of bool-query clauses, failing on the first failure. -/
def compile_clauses (schema : Schema) : List TermQueries → Except ToshiError (List TQuery)
  | [] => .ok []
  | q :: qs =>
    match q.create_query schema, compile_clauses schema qs with
    | .error e, _ => .error e
    | .ok _, .error e => .error e
    | .ok tq, .ok rest => .ok (tq :: rest)

/-- Modelled from the spec: `BoolQuery::create_query` (`src/query/bool.rs`
missing; §4.1: sub-clauses compiled recursively, an empty bool query fails). -/
def BoolQuery.create_query (q : BoolQuery) (schema : Schema) : Except ToshiError TQuery :=
  if q.must.isEmpty && q.must_not.isEmpty && q.should.isEmpty then
    .error (.QueryError "Empty bool query")
  else
    match compile_clauses schema q.must, compile_clauses schema q.must_not,
          compile_clauses schema q.should with
    | .error e, _, _ => .error e
    | .ok _, .error e, _ => .error e
    | .ok _, .ok _, .error e => .error e
    | .ok m, .ok n, .ok s => .ok (.boolean m n s)

/-! ## Engine searcher model (modelled) -/

/-- Do the range bounds accept the integer value? -/
def bounds_ok (gt gte lt lte : Option Int) (x : Int) : Bool :=
  (match gt with | some b => decide (b < x) | none => true) &&
  (match gte with | some b => decide (b ≤ x) | none => true) &&
  (match lt with | some b => decide (x < b) | none => true) &&
  (match lte with | some b => decide (x ≤ b) | none => true)

mutual

/-- Modelled from the spec: the engine's evaluation of an executable query
node against one stored document (§1 treats the engine as a library; only the
behavior the core relies on is modelled). -/
def docMatches : TQuery → Doc → Bool
  | .term t _, d => d.contains t
  | .phrase f ts _, d => ts.all fun w => d.contains (f, w)
  | .fuzzy t dist _, d =>
    if dist == 0 then d.contains t else d.any fun kv => kv.1 == t.1
  | .regex f _, d => d.any fun kv => kv.1 == f
  | .range f gt gte lt lte, d =>
    d.any fun kv =>
      kv.1 == f &&
      (match kv.2.toInt? with
       | some x => bounds_ok gt gte lt lte x
       | none => false)
  | .boolean m n s, d =>
    allMatch m d && !anyMatch n d &&
    (if m.isEmpty && !s.isEmpty then anyMatch s d else true)
  | .parsed raw, d => d.any fun kv => kv.2 == raw
  | .all, _ => true

/-- Every query in the list matches the document. -/
def allMatch : List TQuery → Doc → Bool
  | [], _ => true
  | q :: qs, d => docMatches q d && allMatch qs d

/-- Some query in the list matches the document. -/
def anyMatch : List TQuery → Doc → Bool
  | [], _ => false
  | q :: qs, d => docMatches q d || anyMatch qs d

end

/-- Modelled from the spec: `searcher.search(query, TopDocs::with_limit(n))`.
The searcher snapshot is the list of committed documents; matches are
returned as `(score, doc_address)` pairs, at most `limit` of them. Scores are
modelled by the constant 1. -/
def searcherSearch (docs : List Doc) (q : TQuery) (limit : Nat) : List (Nat × Nat) :=
  (((docs.enum.filter fun p => docMatches q p.2).map fun p => (1, p.1)).take limit)

/-- The number of documents of the snapshot matching a query (the spec's
"total number of matching documents"). -/
def countMatching (docs : List Doc) (q : TQuery) : Nat :=
  (docs.filter fun d => docMatches q d).length

/-- `schema.to_named_doc`: replace field ordinals by schema field names. -/
def to_named_doc (schema : Schema) (d : Doc) : List (String × String) :=
  d.map fun kv => (field_name schema kv.1, kv.2)

/-- `ScoredDoc` (modelled from the spec §3: optional score plus named doc;
`results.rs` is not among the sources). -/
structure ScoredDoc where
  score : Option Nat
  doc : List (String × String)
deriving DecidableEq, Repr

/-- `SearchResults` (modelled from the spec §3 and the repository's tests,
which assert `hits == docs.len()`; `results.rs` is not among the sources). -/
structure SearchResults where
  hits : Nat
  docs : List ScoredDoc
deriving DecidableEq, Repr

/-- Modelled from the spec: `SearchResults::new(docs)` sets `hits` to the
number of returned docs (the repository's tests assert
`hits as usize == docs.len()`). -/
def SearchResults.new (docs : List ScoredDoc) : SearchResults :=
  { hits := docs.length, docs := docs }

/-! ## LocalIndex (`src/handle.rs`) -/

/-- `IndexOptions` (`src/handlers/index.rs`): the optional commit flag. -/
structure IndexOptions where
  commit : Bool
deriving DecidableEq, Repr

/-- `AddDocument` (`src/handlers/index.rs`): options plus the JSON document,
the latter embedded as field-name/value pairs. -/
structure AddDocument where
  options : Option IndexOptions
  document : List (String × String)
deriving DecidableEq, Repr

/-- `DeleteDoc` (`src/handlers/index.rs`): options plus the field→value term
map (a `HashMap` embedded as an association list). -/
structure DeleteDoc where
  options : Option IndexOptions
  terms : List (String × String)
deriving DecidableEq, Repr

/-- `DocsAffected` (`src/handlers/index.rs`). -/
structure DocsAffected where
  docs_affected : Nat
deriving DecidableEq, Repr

/-- `LocalIndex` (`src/handle.rs`) together with the state of its underlying
engine index: the committed (searchable) documents, the writer's uncommitted
adds and term deletes, and the meta's deleted-documents count. -/
structure LocalIndex where
  schema : Schema
  committed : List Doc
  pending : List Doc
  pending_deletes : List Term
  num_deleted : Nat
  current_opstamp : Nat
  name : String
deriving DecidableEq, Repr

/-- Outcome of a Rust call that may also panic (used for `delete_term`, whose
body contains an `unwrap()` on a field lookup). -/
inductive WriteOutcome (α : Type) where
  | ok (a : α)
  | err (e : ToshiError)
  | panicked (msg : String)
deriving DecidableEq, Repr

/-- Modelled from the spec: the engine writer's `commit()` — pending adds
become searchable, pending term deletes remove matching documents and are
accounted in the segment metas' deleted-docs counts. -/
def commitIndex (idx : LocalIndex) : LocalIndex :=
  let all_docs := idx.committed ++ idx.pending
  let deleted := all_docs.filter fun d => idx.pending_deletes.any fun t => d.contains t
  let kept := all_docs.filter fun d => !(idx.pending_deletes.any fun t => d.contains t)
  { idx with
    committed := kept
    pending := []
    pending_deletes := []
    num_deleted := idx.num_deleted + deleted.length }

/-- Modelled from the spec: `schema.parse_document` of the engine (§4.2:
unknown fields and mismatches are query errors); each document field is
resolved against the schema. -/
def parse_doc (schema : Schema) : List (String × String) → Except ToshiError Doc
  | [] => .ok []
  | (k, v) :: rest =>
    match get_field schema k with
    | none => .error (.QueryError s!"The field {k} does not exist in the schema")
    | some f =>
      match parse_doc schema rest with
      | .error e => .error e
      | .ok d => .ok ((f, v) :: d)

/-- `add_document` (`src/handle.rs` lines 115–130): parse the document, add it
to the writer; when `options.commit` is true, commit and reset the opstamp to
0; when `options` is absent, increment the opstamp; when `options` is present
with `commit = false`, neither branch runs. -/
def add_document (idx : LocalIndex) (add_doc : AddDocument) :
    Except ToshiError Unit × LocalIndex :=
  match parse_doc idx.schema add_doc.document with
  | .error e => (.error e, idx)
  | .ok doc =>
    let idx1 := { idx with pending := idx.pending ++ [doc] }
    match add_doc.options with
    | some opts =>
      if opts.commit then
        (.ok (), { commitIndex idx1 with current_opstamp := 0 })
      else
        (.ok (), idx1)
    | none => (.ok (), { idx1 with current_opstamp := idx1.current_opstamp + 1 })

/-- The per-pair loop of `delete_term` (`src/handle.rs` lines 137–141):
`index_schema.get_field(&field).unwrap()` panics when the field is absent;
otherwise a term delete is issued on the writer. -/
def issueDeletes (idx : LocalIndex) : List (String × String) → WriteOutcome Unit × LocalIndex
  | [] => (.ok (), idx)
  | (field, value) :: rest =>
    match get_field idx.schema field with
    | none => (.panicked "called Option::unwrap on a None value", idx)
    | some f => issueDeletes { idx with pending_deletes := idx.pending_deletes ++ [(f, value)] } rest

/-- `delete_term` (`src/handle.rs` lines 132–155): issue a term delete per
pair (panicking on an unknown field), commit and reset the opstamp when
`options.commit` is true, and report `docs_affected` as the metas'
deleted-docs sum. -/
def delete_term (idx : LocalIndex) (dd : DeleteDoc) : WriteOutcome DocsAffected × LocalIndex :=
  match issueDeletes idx dd.terms with
  | (.panicked m, idx2) => (.panicked m, idx2)
  | (.err e, idx2) => (.err e, idx2)
  | (.ok _, idx2) =>
    let idx3 :=
      match dd.options with
      | some opts =>
        if opts.commit then { commitIndex idx2 with current_opstamp := 0 } else idx2
      | none => idx2
    (.ok { docs_affected := idx3.num_deleted }, idx3)

/-- The dispatch of `search_index` (`src/handle.rs` lines 62–102): compile the
query variant and run the searcher on it; with no query, `found_docs` keeps
its initial empty value and no search is performed. -/
def found_docs_for (idx : LocalIndex) (search : Request) :
    Except ToshiError (List (Nat × Nat)) :=
  match search.query with
  | none => .ok []
  | some q =>
    match q with
    | .Regex r =>
      match r.create_query idx.schema with
      | .error e => .error e
      | .ok tq => .ok (searcherSearch idx.committed tq search.limit)
    | .Phrase p =>
      match p.create_query idx.schema with
      | .error e => .error e
      | .ok tq => .ok (searcherSearch idx.committed tq search.limit)
    | .Fuzzy f =>
      match f.create_query idx.schema with
      | .error e => .error e
      | .ok tq => .ok (searcherSearch idx.committed tq search.limit)
    | .Exact t =>
      match t.create_query idx.schema with
      | .error e => .error e
      | .ok tq => .ok (searcherSearch idx.committed tq search.limit)
    | .Boolean b =>
      match b.create_query idx.schema with
      | .error e => .error e
      | .ok tq => .ok (searcherSearch idx.committed tq search.limit)
    | .Range r =>
      match r.create_query idx.schema with
      | .error e => .error e
      | .ok tq => .ok (searcherSearch idx.committed tq search.limit)
    | .Raw raw => .ok (searcherSearch idx.committed (.parsed raw) search.limit)
    | .All => .ok (searcherSearch idx.committed .all search.limit)

/-- `search_index` (`src/handle.rs` lines 57–113): run the query (if any),
materialize each hit as a scored named document, and wrap the list in
`SearchResults::new`. -/
def search_index (idx : LocalIndex) (search : Request) : Except ToshiError SearchResults :=
  match found_docs_for idx search with
  | .error e => .error e
  | .ok found_docs =>
    .ok (SearchResults.new (found_docs.map fun p =>
      { score := some p.1, doc := to_named_doc idx.schema (idx.committed.getD p.2 []) }))

/-! ## IndexCatalog (`toshi-server/src/index.rs`) -/

/-- A directory entry as `fs::read_dir` yields it, together with the engine
facts `refresh_catalog` consults: whether the path exists, whether
`Index::open_in_dir` succeeds, and the schema of the opened index. -/
structure DirEntry where
  path : String
  pathExists : Bool
  openable : Bool
  schema : Schema
  valid_unicode : Bool
deriving DecidableEq, Repr

/-- The file-system environment a catalog operation runs against: the paths
where directory creation fails, and the listing of `base_path`. -/
structure FsEnv where
  create_fails : List String
  entries : List DirEntry
deriving DecidableEq, Repr

/-- Modelled from the spec: the newer `LocalIndex` handle of
`toshi-server/src/handle.rs`, which is not among the sources; only the data
the catalog claims consult (name and schema) is carried. -/
structure ServerLocalIndex where
  name : String
  schema : Schema
deriving DecidableEq, Repr

/-- Modelled from the spec: `LocalIndex::new` (§4.2 Construction: creates or
opens the directory `base_path/name` — failing with an `IOError` when the
directory cannot be created — and opens the index with the supplied schema). -/
def ServerLocalIndex.new (fs : FsEnv) (base_path : String) (name : String)
    (schema : Schema) : Except ToshiError ServerLocalIndex :=
  if (base_path ++ "/" ++ name) ∈ fs.create_fails then
    .error (.IOError s!"Unable to create directory {base_path}/{name}")
  else .ok { name := name, schema := schema }

/-- `IndexCatalog` (`toshi-server/src/index.rs`): the base path and the
name→handle map (a `DashMap` embedded as an association list whose insert
replaces an existing binding). -/
structure IndexCatalog where
  base_path : String
  local_handles : List (String × ServerLocalIndex)
deriving DecidableEq, Repr

/-- `DashMap::insert`: bind `k` to `v`, replacing an existing binding. -/
def dashInsert : List (String × ServerLocalIndex) → String → ServerLocalIndex →
    List (String × ServerLocalIndex)
  | [], k, v => [(k, v)]
  | (k0, v0) :: rest, k, v =>
    if k0 = k then (k, v) :: rest else (k0, v0) :: dashInsert rest k v

/-- `DashMap::get`: look up a binding. -/
def dashGet : List (String × ServerLocalIndex) → String → Option ServerLocalIndex
  | [], _ => none
  | (k0, v0) :: rest, k => if k0 = k then some v0 else dashGet rest k

/-- `IndexCatalog::add_index` (`toshi-server/src/index.rs` lines 42–52):
create a handle via `LocalIndex::new` and insert it under `name`; there is no
check of an existing binding. -/
def IndexCatalog.add_index (c : IndexCatalog) (fs : FsEnv) (name : String)
    (schema : Schema) : Except ToshiError Unit × IndexCatalog :=
  match ServerLocalIndex.new fs c.base_path name schema with
  | .error e => (.error e, c)
  | .ok handle =>
    (.ok (), { c with local_handles := dashInsert c.local_handles name handle })

/-- `IndexCatalog::get_index` (`toshi-server/src/index.rs` lines 61–66). -/
def IndexCatalog.get_index (c : IndexCatalog) (name : String) :
    Except ToshiError ServerLocalIndex :=
  match dashGet c.local_handles name with
  | some h => .ok h
  | none => .error (.UnknownIndex name)

/-- `IndexCatalog::load_index` (`toshi-server/src/index.rs` lines 91–98):
check the path exists, then `Index::open_in_dir`, mapping failures to
`UnknownIndex` of the displayed path. The opened index is represented by its
schema. -/
def load_index (entry : DirEntry) : Except ToshiError Schema :=
  if entry.pathExists then
    if entry.openable then .ok entry.schema
    else .error (.UnknownIndex entry.path)
  else .error (.UnknownIndex entry.path)

/-- Rust's `str::ends_with`, written over the character lists so that it
evaluates by reduction. -/
def ends_with (s suffix : String) : Bool :=
  List.isPrefixOf suffix.data.reverse s.data.reverse

/-- `entry_str.rsplit('/').take(1).collect()`: the last `/`-separated
component of the path. -/
def basename (path : String) : String :=
  (path.splitOn "/").getLastD path

/-- The per-entry loop of `refresh_catalog` (`toshi-server/src/index.rs`
lines 113–128). -/
def refreshLoop (fs : FsEnv) (c : IndexCatalog) :
    List DirEntry → Except ToshiError Unit × IndexCatalog
  | [] => (.ok (), c)
  | entry :: rest =>
    if entry.valid_unicode then
      if entry.pathExists then
        if ends_with entry.path ".node_id" then refreshLoop fs c rest
        else
          match load_index entry with
          | .error e => (.error e, c)
          | .ok schema =>
            match c.add_index fs (basename entry.path) schema with
            | (.error e, c2) => (.error e, c2)
            | (.ok _, c2) => refreshLoop fs c2 rest
      else (.error (.UnknownIndex s!"Path {entry.path}"), c)
    else
      (.error (.UnknownIndex s!"Path {entry.path} is not a valid unicode path"), c)

/-- `IndexCatalog::refresh_catalog` (`toshi-server/src/index.rs` lines
110–130): clear the handle map, then scan `base_path`, loading every
non-`.node_id` entry; the first failure aborts the scan. -/
def IndexCatalog.refresh_catalog (c : IndexCatalog) (fs : FsEnv) :
    Except ToshiError Unit × IndexCatalog :=
  refreshLoop fs { c with local_handles := [] } fs.entries

/-! ## Placement service (`src/cluster/placement_server.rs`) -/

/-- A shard, identified by its (hyphenated) id. -/
structure Shard where
  shard_id : String
deriving DecidableEq, Repr

/-- `NodeData` (`cluster/consul_interface.rs`): the record whose `primaries`
list identifies shard-owner nodes (spec §4.5). -/
structure NodeData where
  primaries : List Shard
deriving DecidableEq, Repr

/-- The consensus-backed key-value store the placement server reads. -/
structure ConsulInterface where
  kv : List (String × NodeData)
deriving DecidableEq, Repr

/-- `PlacementRequest` of the gRPC surface. -/
structure PlacementRequest where
  index : String
  kind : Nat
deriving DecidableEq, Repr

/-- `PlacementReply` of the gRPC surface. -/
structure PlacementReply where
  node : String
  kind : Nat
deriving DecidableEq, Repr

/-- `Place::determine_placement` (`src/cluster/placement_server.rs` lines
35–50): the consul lookup and last-primary selection are commented out; the
function unconditionally replies with an empty node and kind 1. -/
def determine_placement (_consul : ConsulInterface) (_req : PlacementRequest) :
    PlacementReply :=
  { node := "", kind := 1 }

/-- Modelled from the spec: the reply §4.5 prescribes — consult the `NodeData`
record, pick the last primary, return its identifier, echoing the request's
kind (this mirrors the commented-out body of `determine_placement`). -/
def placement_spec_reply (req : PlacementRequest) (nd : NodeData) :
    Option PlacementReply :=
  nd.primaries.getLast?.map fun s => { node := s.shard_id, kind := req.kind }

/-! ## Test fixtures (mirroring the repository's test schema) -/

/-- The repository's test schema: an indexed text field with positions, two
numeric fields, and a stored-only text field. -/
def testSchema : Schema :=
  [("test_text", .text true true), ("test_i64", .i64), ("test_u64", .u64),
   ("test_unindex", .text false false)]

/-- A committed document whose `test_text` holds the token `document`. -/
def docWithDocument : Doc := [(0, "document")]

/-- A handle over `testSchema` with one committed document and a quiescent
writer. -/
def sampleIndex : LocalIndex :=
  { schema := testSchema, committed := [docWithDocument], pending := [],
    pending_deletes := [], num_deleted := 0, current_opstamp := 0,
    name := "test_index" }

/-- The sample handle with five uncommitted operations on record. -/
def idxOp5 : LocalIndex := { sampleIndex with current_opstamp := 5 }

/-- An add request whose options are present with `commit = false`. -/
def addNoCommit : AddDocument :=
  { options := some { commit := false }, document := [("test_text", "hello")] }

/-- An add request with the options object absent. -/
def addNoOptions : AddDocument :=
  { options := none, document := [("test_text", "hello")] }

/-- An add request with `commit = true`. -/
def addCommit : AddDocument :=
  { options := some { commit := true }, document := [("test_text", "hello")] }

/-- A delete request with `commit = true` over a schema field. -/
def delCommit : DeleteDoc :=
  { options := some { commit := true }, terms := [("test_text", "document")] }

/-- A delete request naming a field absent from `testSchema`. -/
def delUnknownField : DeleteDoc :=
  { options := none, terms := [("asdf", "Document")] }

/-! ## Claims about the write path -/

/-- C1 (counterexample): the claim says every add without `commit = true` —
including one whose options object is present with `commit = false` —
increments `current_opstamp` by exactly one. On `add_document`'s code the
`else` branch is attached to the presence of `options`, so a present options
object with `commit = false` leaves the opstamp unchanged: from 5 it stays 5,
not 6. -/
theorem add_document_opstamp_counterexample :
    (add_document idxOp5 addNoCommit).1 = .ok () ∧
    (add_document idxOp5 addNoCommit).2.current_opstamp = 5 ∧
    (add_document idxOp5 addNoCommit).2.current_opstamp ≠ idxOp5.current_opstamp + 1 :=
  ⟨rfl, rfl, by decide⟩

/-- C1 (amended): for an `add_document` call whose document parses, the
opstamp increases by exactly one when the options object is absent, and is
unchanged when the options object is present with `commit = false`. -/
theorem add_document_opstamp_amended (idx : LocalIndex) (ad : AddDocument) (doc : Doc)
    (hp : parse_doc idx.schema ad.document = .ok doc) :
    (ad.options = none →
      (add_document idx ad).2.current_opstamp = idx.current_opstamp + 1) ∧
    (∀ o : IndexOptions, ad.options = some o → o.commit = false →
      (add_document idx ad).2.current_opstamp = idx.current_opstamp) := by
  constructor
  · intro h
    simp [add_document, hp, h]
  · intro o ho hc
    simp [add_document, hp, ho, hc]

/-- C1 (witness): the amended statement evaluated on the sample handle at
opstamp 5, for an absent options object and for `commit = false`. -/
theorem add_document_opstamp_amended_witness :
    (addNoCommit.options = none →
      (add_document idxOp5 addNoCommit).2.current_opstamp = idxOp5.current_opstamp + 1) ∧
    (∀ o : IndexOptions, addNoCommit.options = some o → o.commit = false →
      (add_document idxOp5 addNoCommit).2.current_opstamp = idxOp5.current_opstamp) :=
  add_document_opstamp_amended idxOp5 addNoCommit [(0, "hello")] rfl

/-- C4: `delete_term` resolves each field with
`index_schema.get_field(&field).unwrap()`; on a field absent from the schema
the call panics instead of returning the `UnknownField` error the spec
prescribes. Evaluated at the failing input `{"asdf": "Document"}` against the
test schema. -/
theorem delete_term_unknown_field_panics :
    (delete_term sampleIndex delUnknownField).1 =
      .panicked "called Option::unwrap on a None value" := rfl

/-- C7: every `add_document` or `delete_term` call with `commit = true` that
returns successfully leaves `current_opstamp` equal to zero. -/
theorem commit_resets_opstamp :
    (∀ (idx : LocalIndex) (ad : AddDocument), ad.options = some { commit := true } →
      (add_document idx ad).1 = .ok () →
      (add_document idx ad).2.current_opstamp = 0) ∧
    (∀ (idx : LocalIndex) (dd : DeleteDoc) (r : DocsAffected),
      dd.options = some { commit := true } →
      (delete_term idx dd).1 = .ok r →
      (delete_term idx dd).2.current_opstamp = 0) := by
  constructor
  · intro idx ad hopt hok
    cases hp : parse_doc idx.schema ad.document with
    | error e => simp [add_document, hp] at hok
    | ok doc => simp [add_document, hp, hopt]
  · intro idx dd r hopt hok
    cases hl : issueDeletes idx dd.terms with
    | mk outcome idx2 =>
      cases outcome with
      | ok a => simp [delete_term, hl, hopt]
      | err e => simp [delete_term, hl] at hok
      | panicked m => simp [delete_term, hl] at hok

/-- C7 (witness): the commit-reset law evaluated on the sample handle at
opstamp 5 for a committing add and a committing delete. -/
theorem commit_resets_opstamp_witness :
    (add_document idxOp5 addCommit).2.current_opstamp = 0 ∧
    (delete_term idxOp5 delCommit).2.current_opstamp = 0 :=
  ⟨commit_resets_opstamp.1 idxOp5 addCommit rfl rfl,
   commit_resets_opstamp.2 idxOp5 delCommit { docs_affected := 1 } rfl rfl⟩

/-! ## Claims about the search path -/

/-- A search request with no query and limit 10. -/
def reqNone : Request := { aggs := none, query := none, limit := 10 }

/-- The identical request with the `All` query. -/
def reqAll : Request := { aggs := none, query := some .All, limit := 10 }

/-- An `All` search with limit 0. -/
def reqAllZero : Request := { aggs := none, query := some .All, limit := 0 }

/-- C5 (counterexample): on a handle with one committed document,
`search_index` with no query returns empty results while the identical
request with the `All` query returns the document — the two are not the same
`SearchResults`. -/
theorem search_none_vs_all_counterexample :
    search_index sampleIndex reqNone = .ok { hits := 0, docs := [] } ∧
    search_index sampleIndex reqAll =
      .ok { hits := 1,
            docs := [{ score := some 1, doc := [("test_text", "document")] }] } ∧
    ({ hits := 0, docs := [] } : SearchResults) ≠
      { hits := 1, docs := [{ score := some 1, doc := [("test_text", "document")] }] } :=
  ⟨rfl, rfl, by decide⟩

/-- C5 (amended): `search_index` on a request with no query performs no
search at all and returns empty `SearchResults` (hits 0, no docs); the
absent-query-equals-All normalization happens in the `doc_search` handler,
not in `search_index`. -/
theorem search_none_empty_results (idx : LocalIndex) (req : Request)
    (h : req.query = none) :
    search_index idx req = .ok (SearchResults.new []) := by
  simp [search_index, found_docs_for, h]

/-- C5 (witness): the empty-results law evaluated on the sample handle. -/
theorem search_none_empty_results_witness :
    search_index sampleIndex reqNone = .ok (SearchResults.new []) :=
  search_none_empty_results sampleIndex reqNone rfl

/-- A search with a limit of zero returns no addresses. -/
theorem searcherSearch_limit_zero (docs : List Doc) (q : TQuery) :
    searcherSearch docs q 0 = [] := by
  simp [searcherSearch]

/-- C8 (counterexample): the claim says limit 0 yields
`hits = total_matches`; on a handle with one committed document the `All`
query at limit 0 succeeds with `hits = 0` while the total number of matching
documents is 1. -/
theorem limit_zero_counterexample :
    search_index sampleIndex reqAllZero = .ok { hits := 0, docs := [] } ∧
    countMatching sampleIndex.committed .all = 1 ∧
    (0 : Nat) ≠ 1 :=
  ⟨rfl, rfl, by decide⟩

/-- Unfolding of `search_index` on a successful query dispatch. -/
theorem search_index_ok (idx : LocalIndex) (req : Request) (fd : List (Nat × Nat))
    (hf : found_docs_for idx req = .ok fd) :
    search_index idx req = .ok (SearchResults.new (fd.map fun p =>
      { score := some p.1, doc := to_named_doc idx.schema (idx.committed.getD p.2 []) })) := by
  simp [search_index, hf]

/-- C8 (amended): for every index state and query, a `search_index` call with
`limit = 0` that succeeds returns an empty docs list and `hits = 0` (not the
count of matching documents). -/
theorem limit_zero_amended (idx : LocalIndex) (req : Request) (h : req.limit = 0)
    (r : SearchResults) (hs : search_index idx req = .ok r) :
    r.docs = [] ∧ r.hits = 0 := by
  cases hf : found_docs_for idx req with
  | error e => simp [search_index, hf] at hs
  | ok fd =>
    have hfd : fd = [] := by
      unfold found_docs_for at hf
      split at hf
      · injection hf with h1; exact h1.symm
      · split at hf <;> (try split at hf)
        all_goals try cases hf
        all_goals simp [h, searcherSearch_limit_zero]
    subst hfd
    rw [search_index_ok idx req [] hf] at hs
    injection hs with h2
    rw [← h2]
    exact ⟨rfl, rfl⟩

/-- C8 (witness): the limit-zero law evaluated on the sample handle with the
`All` query. -/
theorem limit_zero_amended_witness :
    (SearchResults.new []).docs = [] ∧ (SearchResults.new []).hits = 0 :=
  limit_zero_amended sampleIndex reqAllZero rfl (SearchResults.new []) rfl

/-! ## Claims about query compilation -/

/-- The exact term query of the spec's unknown-field scenario. -/
def exactAsdf : ExactTerm := { term := [("asdf", "Document")] }

/-- C6 (counterexample): compiling an Exact term query over the absent field
`asdf` fails with `QueryError ("Field: asdf does not exist")` — not with
`UnknownField`, and not with the message `Unknown field: asdf`. -/
theorem exact_unknown_field_counterexample :
    exactAsdf.create_query testSchema =
      .error (.QueryError "Field: asdf does not exist") ∧
    ToshiError.QueryError "Field: asdf does not exist" ≠ .UnknownField "asdf" ∧
    "Field: asdf does not exist" ≠ "Unknown field: asdf" :=
  ⟨rfl, by decide, by decide⟩

/-- C6 (amended): for every schema and Exact term query whose first entry
names a field absent from the schema, compilation fails with a `QueryError`
whose message is `Field: {field} does not exist`. -/
theorem exact_unknown_field_amended (schema : Schema) (k v : String)
    (rest : List (String × String)) (h : get_field schema k = none) :
    ExactTerm.create_query { term := (k, v) :: rest } schema =
      .error (.QueryError s!"Field: {k} does not exist") := by
  simp [ExactTerm.create_query, make_field_value, h]

/-- C6 (witness): the amended statement evaluated at field `asdf` against the
test schema. -/
theorem exact_unknown_field_amended_witness :
    ExactTerm.create_query { term := [("asdf", "Document")] } testSchema =
      .error (.QueryError s!"Field: asdf does not exist") :=
  exact_unknown_field_amended testSchema "asdf" "Document" [] rfl

/-- C10: compiling an Exact term query with an empty field→term map fails
with `QueryError ("Query generation failed")`; with entries present the
result is determined by the first entry alone (the remaining entries are
ignored). -/
theorem exact_term_first_entry :
    (∀ schema : Schema,
      ExactTerm.create_query { term := [] } schema =
        .error (.QueryError "Query generation failed")) ∧
    (∀ (schema : Schema) (k v : String) (rest : List (String × String)),
      ExactTerm.create_query { term := (k, v) :: rest } schema =
        ExactTerm.create_query { term := [(k, v)] } schema) := by
  constructor
  · intro schema; rfl
  · intro schema k v rest; rfl

/-! ## Claims about the catalog -/

/-- A handle bound under the name `a` in the pre-refresh catalog. -/
def handleA : ServerLocalIndex := { name := "a", schema := [("f1", .text true true)] }

/-- A catalog holding one binding before a refresh. -/
def catC2 : IndexCatalog := { base_path := "base", local_handles := [("a", handleA)] }

/-- A directory entry that exists but fails to open as an index. -/
def badEntry : DirEntry :=
  { path := "base/bad", pathExists := true, openable := false, schema := [],
    valid_unicode := true }

/-- A base-path listing holding only the unopenable directory. -/
def fsBad : FsEnv := { create_fails := [], entries := [badEntry] }

/-- C2 (counterexample): the claim says a failed refresh leaves the catalog's
map unchanged; on a catalog holding the binding `a`, a refresh over a
directory that fails to open returns `UnknownIndex` with the map already
cleared — the previous binding is gone. -/
theorem refresh_catalog_counterexample :
    (catC2.refresh_catalog fsBad).1 = .error (.UnknownIndex "base/bad") ∧
    (catC2.refresh_catalog fsBad).2.local_handles = [] ∧
    catC2.local_handles ≠ [] :=
  ⟨rfl, rfl, by decide⟩

/-- C2 (amended): `refresh_catalog` clears the previous name→handle map at
the start, so its outcome — including the catalog state left behind by a
failed refresh — is entirely independent of the map's previous contents; on
error the map holds exactly the handles loaded earlier in that refresh. -/
theorem refresh_catalog_clears_previous (c : IndexCatalog) (fs : FsEnv) :
    c.refresh_catalog fs =
      IndexCatalog.refresh_catalog { base_path := c.base_path, local_handles := [] } fs :=
  rfl

/-- The handle previously bound under `test`. -/
def handleTestOld : ServerLocalIndex :=
  { name := "test", schema := [("f1", .text true true)] }

/-- A second schema, distinct from the bound handle's. -/
def schemaB : Schema := [("f2", .i64)]

/-- A catalog in which the name `test` is already bound. -/
def catC3 : IndexCatalog := { base_path := "data", local_handles := [("test", handleTestOld)] }

/-- A file system in which every directory creation succeeds. -/
def fsOk : FsEnv := { create_fails := [], entries := [] }

/-- C3 (counterexample): the claim says `add_index` on a bound name fails
with `AlreadyExists` and leaves the binding unchanged; on a catalog with
`test` bound, `add_index "test"` succeeds and replaces the binding with the
freshly created handle. -/
theorem add_index_counterexample :
    (catC3.add_index fsOk "test" schemaB).1 = .ok () ∧
    (catC3.add_index fsOk "test" schemaB).2.get_index "test" =
      .ok { name := "test", schema := schemaB } ∧
    ServerLocalIndex.mk "test" schemaB ≠ handleTestOld :=
  ⟨rfl, rfl, by decide⟩

/-- C3 (amended): `add_index` performs no already-bound check: whenever the
handle is created successfully it returns ok and inserts it, replacing any
existing binding for the name, and it never fails with `AlreadyExists` (its
only failure is the handle construction's `IOError`). -/
theorem add_index_amended (c : IndexCatalog) (fs : FsEnv) (name : String)
    (schema : Schema) (h : ServerLocalIndex)
    (hnew : ServerLocalIndex.new fs c.base_path name schema = .ok h) :
    c.add_index fs name schema =
      (.ok (), { c with local_handles := dashInsert c.local_handles name h }) ∧
    ∀ s : String, (c.add_index fs name schema).1 ≠ .error (.AlreadyExists s) := by
  constructor
  · simp [IndexCatalog.add_index, hnew]
  · intro s
    simp [IndexCatalog.add_index, hnew]

/-- C3 (witness): the amended statement evaluated on the catalog with `test`
bound. -/
theorem add_index_amended_witness :
    (catC3.add_index fsOk "test" schemaB =
      (.ok (), { catC3 with
        local_handles := dashInsert catC3.local_handles "test"
          (ServerLocalIndex.mk "test" schemaB) })) ∧
    ∀ s : String, (catC3.add_index fsOk "test" schemaB).1 ≠ .error (.AlreadyExists s) :=
  add_index_amended catC3 fsOk "test" schemaB (ServerLocalIndex.mk "test" schemaB) rfl

/-! ## Claim about the placement service -/

/-- A `NodeData` record with one primary shard. -/
def ndC9 : NodeData := { primaries := [{ shard_id := "abc" }] }

/-- A KV snapshot binding the index `test` to that record. -/
def consulC9 : ConsulInterface := { kv := [("test", ndC9)] }

/-- A placement request for index `test` with kind 2. -/
def reqC9 : PlacementRequest := { index := "test", kind := 2 }

/-- C9: `determine_placement` ignores both the request and the KV snapshot
and replies with an empty node and kind 1 (the last-primary lookup is
commented out in the source), so the reply the claim and the spec prescribe —
the last primary's identifier with the request's kind echoed — is not
returned. -/
theorem determine_placement_stub :
    determine_placement consulC9 reqC9 = { node := "", kind := 1 } ∧
    placement_spec_reply reqC9 ndC9 = some { node := "abc", kind := 2 } ∧
    determine_placement consulC9 reqC9 ≠ { node := "abc", kind := 2 } :=
  ⟨rfl, rfl, by decide⟩

end Toshi
